import Mathlib

/-!
Verification of the AI-INTERVIEW-APP session-analysis pipeline.

The development embeds, as Lean functions over `List Char`, `ℤ` and `ℚ`:
  * the transcript analyzer `analyzeTranscript` from `src/backend/server.js`
    (filler-word detection, pace/WPM, eye-contact, length, action-verb
    rubrics, score clamping, suggestion deduplication);
  * the per-connection websocket session handler from the same file
    (start / transcript / eye_contact / face_detected / stop events,
    JSON-parse failure branch);
  * the gaze classifier `detectEyeContact` from the frontend component.

JS strings are modelled as `List Char`, JS numbers in scoring-relevant
positions as `ℤ` (integer counters and discrete scores) and `ℚ`
(durations and the intermediate quotients fed to `Math.round`).
-/

/-- JS `Math.round`: rounds half-way cases toward `+∞`,
i.e. `Math.round(x) = ⌊x + 1/2⌋`. -/
def jsRound (q : ℚ) : ℤ := ⌊q + 1/2⌋

/-- JS word character for `\b` boundaries: `[A-Za-z0-9_]`. -/
def isWordChar (c : Char) : Bool := c.isAlpha || c.isDigit || c == '_'

/-- Case-insensitive prefix match (the `i` regex flag; lexicon entries are
lowercase ASCII). -/
def matchPrefixCI : List Char → List Char → Bool
  | [], _ => true
  | _ :: _, [] => false
  | p :: ps, c :: cs => (c.toLower == p.toLower) && matchPrefixCI ps cs

/-- `\b` holds before the match: previous character (if any) is not a word
character.  All lexicon entries start with a letter, so the boundary reduces
to this condition. -/
def prevBoundary : Option Char → Bool
  | none => true
  | some p => !isWordChar p

/-- `\b` holds after the match: next character (if any) is not a word
character.  All lexicon entries end with a letter. -/
def nextBoundary : List Char → Bool
  | [] => true
  | d :: _ => !isWordChar d

/-- One step of the `g`-flag regex scan of `new RegExp('\\b' + w + '\\b','gi')`
over the text: at each position, if a boundary-delimited case-insensitive
occurrence of `pat` starts here, count it and resume after it, else advance by
one character.  `fuel` bounds the recursion (each step consumes at least one
character). -/
def countMatchesAux (pat : List Char) : Nat → List Char → Option Char → Nat
  | 0, _, _ => 0
  | _ + 1, [], _ => 0
  | fuel + 1, c :: rest, prev =>
    if pat ≠ [] ∧ prevBoundary prev ∧ matchPrefixCI pat (c :: rest)
        ∧ nextBoundary ((c :: rest).drop pat.length) then
      1 + countMatchesAux pat fuel ((c :: rest).drop pat.length)
            ((c :: rest).get? (pat.length - 1))
    else
      countMatchesAux pat fuel rest (some c)

/-- Number of matches of `transcript.match(new RegExp('\\b'+pat+'\\b','gi'))`. -/
def countMatches (pat text : List Char) : Nat :=
  countMatchesAux pat text.length text none

/-- The filler-word lexicon of `analyzeTranscript`. -/
def fillerWords : List (List Char) :=
  ["um".toList, "uh".toList, "like".toList, "you know".toList,
   "basically".toList, "actually".toList, "literally".toList]

/-- Total filler-word count `fillerCount` accumulated over the lexicon. -/
def fillerCount (t : List Char) : Nat :=
  (fillerWords.map (fun w => countMatches w t)).sum

/-- The action-verb lexicon of `analyzeTranscript`. -/
def actionVerbs : List (List Char) :=
  ["achieved".toList, "led".toList, "managed".toList, "created".toList,
   "delivered".toList, "improved".toList, "increased".toList,
   "reduced".toList, "solved".toList, "implemented".toList]

/-- Total action-verb count accumulated over the lexicon. -/
def actionVerbCount (t : List Char) : Nat :=
  (actionVerbs.map (fun w => countMatches w t)).sum

/-- JS `s.split(/\s+/)` on a string modelled as a character list: splits at
maximal whitespace runs; a leading (resp. trailing) whitespace run contributes
a leading (resp. trailing) empty piece, and `"".split(/\s+/) = [""]`. -/
def splitWs : List Char → List (List Char)
  | [] => [[]]
  | [c] => if c.isWhitespace then [[], []] else [[c]]
  | c :: d :: rest =>
    if c.isWhitespace then
      if d.isWhitespace then splitWs (d :: rest)
      else [] :: splitWs (d :: rest)
    else
      match splitWs (d :: rest) with
      | [] => [[c]]
      | p :: ps => (c :: p) :: ps

/-- `transcript.split(/\s+/).length`, the analyzer's `wordCount`. -/
def wordCount (t : List Char) : Nat := (splitWs t).length

/-- `wpm = Math.round(wordCount / (duration / 60))`. -/
def wpm (t : List Char) (duration : ℚ) : ℤ :=
  jsRound ((wordCount t : ℚ) / (duration / 60))

/-- Filler rubric score delta (`+2` / `+1` / `+0`). -/
def fillerDelta (f : Nat) : ℤ :=
  if f = 0 then 2 else if f ≤ 2 then 1 else 0

/-- Filler rubric suggestion string. -/
def fillerSuggestion (f : Nat) : String :=
  if f = 0 then "✅ Excellent! No filler words detected"
  else if f ≤ 2 then s!"⚠️ Reduce filler words (found {f})"
  else s!"❌ Too many filler words ({f} found) - Speak with confidence"

/-- Pace rubric score delta. -/
def paceDelta (w : ℤ) : ℤ :=
  if 120 ≤ w ∧ w ≤ 150 then 1 else 0

/-- Pace rubric suggestions: note the `else`-less final branch of the JS
`if`/`else if` chain pushes nothing for `80 ≤ wpm < 120` and
`150 < wpm ≤ 180`. -/
def paceSuggestions (w : ℤ) : List String :=
  if 120 ≤ w ∧ w ≤ 150 then [s!"✅ Perfect pace: {w} words/min (120-150 is ideal)"]
  else if w < 80 then [s!"⚠️ Speaking too slowly ({w} wpm) - Pick up the pace"]
  else if w > 180 then [s!"⚠️ Speaking too fast ({w} wpm) - Slow down for clarity"]
  else []

/-- Eye-contact rubric score delta. -/
def gazeDelta (g : ℤ) : ℤ :=
  if g ≥ 80 then 2 else if g ≥ 60 then 1 else 0

/-- Eye-contact rubric suggestion string. -/
def gazeSuggestion (g : ℤ) : String :=
  if g ≥ 80 then "✅ Excellent eye contact maintained"
  else if g ≥ 60 then s!"⚠️ Maintain more eye contact ({g}% detected)"
  else s!"❌ Poor eye contact ({g}%) - Look at the camera"

/-- Response-length rubric score delta. -/
def lengthDelta (wc : Nat) : ℤ :=
  if wc < 50 then 0 else if wc > 500 then 0 else 1

/-- Response-length rubric suggestion string. -/
def lengthSuggestion (wc : Nat) : String :=
  if wc < 50 then "⚠️ Response too short - Provide more details"
  else if wc > 500 then "⚠️ Response too long - Be more concise"
  else "✅ Good response length"

/-- Action-verb rubric score delta. -/
def verbDelta (v : Nat) : ℤ :=
  if v ≥ 3 then 2 else if v > 0 then 1 else 0

/-- Action-verb rubric suggestion string. -/
def verbSuggestion (v : Nat) : String :=
  if v ≥ 3 then s!"✅ Great use of action verbs ({v} found)"
  else if v > 0 then s!"⚠️ Use more action verbs ({v} found - aim for 3+)"
  else "❌ Include action verbs (achieved, led, managed, etc.)"

/-- The `suggestions` array as pushed by the five rubric blocks, before the
`[...new Set(suggestions)]` deduplication. -/
def suggestionsRaw (t : List Char) (duration : ℚ) (g : ℤ) : List String :=
  fillerSuggestion (fillerCount t)
    :: (paceSuggestions (wpm t duration)
        ++ (gazeSuggestion g
            :: lengthSuggestion (wordCount t)
            :: [verbSuggestion (actionVerbCount t)]))

/-- The score accumulated by the five rubric blocks before clamping:
base `6` plus the five deltas. -/
def rawScore (t : List Char) (duration : ℚ) (g : ℤ) : ℤ :=
  6 + fillerDelta (fillerCount t) + paceDelta (wpm t duration)
    + gazeDelta g + lengthDelta (wordCount t) + verbDelta (actionVerbCount t)

/-- `[...new Set(xs)]`: deduplication keeping the first occurrence of each
string, preserving order. -/
def dedupFirstAux : List String → List String → List String
  | [], _ => []
  | x :: xs, seen =>
    if x ∈ seen then dedupFirstAux xs seen
    else x :: dedupFirstAux xs (x :: seen)

/-- `[...new Set(suggestions)]`. -/
def dedupFirst (xs : List String) : List String := dedupFirstAux xs []

/-- The `metrics` object assembled by `analyzeTranscript`. -/
structure Metrics where
  fillerWords : Nat
  wordsPerMinute : ℤ
  totalWords : Nat
  eyeContactScore : ℤ
  facesDetected : Nat
  actionVerbs : Nat
  deriving Repr, DecidableEq

/-- Result of `analyzeTranscript` (the display-only `analysis` sub-object of
fixed template strings is not modelled). -/
structure AnalysisResult where
  score : ℤ
  suggestions : List String
  metrics : Metrics
  deriving Repr, DecidableEq

/-- `analyzeTranscript(transcript, duration, eyeContactScore, facesDetected)`
from `src/backend/server.js`. -/
def analyzeTranscript (t : List Char) (duration : ℚ) (eyeContactScore : ℤ)
    (facesDetected : Nat) : AnalysisResult :=
  { score := min 10 (max 1 (rawScore t duration eyeContactScore))
    suggestions := dedupFirst (suggestionsRaw t duration eyeContactScore)
    metrics :=
      { fillerWords := fillerCount t
        wordsPerMinute := wpm t duration
        totalWords := wordCount t
        eyeContactScore := eyeContactScore
        facesDetected := facesDetected
        actionVerbs := actionVerbCount t } }

/-! ### Session state and websocket message handling -/

/-- Per-connection mutable session state (`sessionData` in `server.js`).
`startTime` is `Date.now()` in milliseconds. -/
structure SessionData where
  transcript : List Char
  startTime : ℤ
  eyeContactScores : List ℤ
  facesDetected : Nat
  deriving Repr, DecidableEq

/-- `sessionData.transcript += ' ' + data.transcript`. -/
def appendFragment (t fragment : List Char) : List Char := t ++ ' ' :: fragment

/-- `Math.round(eyeContactScores.reduce((a,b) => a+b, 0) / length)`, or `0`
when no samples were recorded. -/
def avgEyeContact (scores : List ℤ) : ℤ :=
  if 0 < scores.length then jsRound ((scores.sum : ℚ) / (scores.length : ℚ))
  else 0

/-- `transcript.trim()` (leading and trailing whitespace removed). -/
def trimWs (t : List Char) : List Char :=
  (((t.dropWhile Char.isWhitespace).reverse.dropWhile Char.isWhitespace).reverse)

/-- Successfully parsed inbound messages, by their `type` field.  A decodable
message whose `type` matches none of the five handled values falls through
the `if`/`else if` chain with no effect (`other`). -/
inductive Msg where
  | transcriptMsg (fragment : List Char)
  | eyeContact (score : ℤ)
  | faceDetected
  | start
  | stop
  | other
  deriving Repr, DecidableEq

/-- Outbound messages sent on the websocket. -/
inductive OutMsg where
  | status (message : String)
  | finalAnalysis (transcript : List Char) (analysis : AnalysisResult)
  | error (message : String)
  deriving Repr, DecidableEq

/-- The `ws.on('message', ...)` handler.  The inbound payload is modelled
post-`JSON.parse`: `Except.error e` is a message on which decoding threw with
description `e`, landing in the `catch` block that emits `error` (the parse is
the first statement of the `try`, so no state was touched).  `now` is
`Date.now()`.  Returns the updated session state and the replies sent. -/
def handleMessage (s : SessionData) (now : ℤ) (raw : Except String Msg) :
    SessionData × List OutMsg :=
  match raw with
  | .error e => (s, [.error e])
  | .ok m =>
    match m with
    | .transcriptMsg f => ({ s with transcript := appendFragment s.transcript f }, [])
    | .eyeContact sc => ({ s with eyeContactScores := s.eyeContactScores ++ [sc] }, [])
    | .faceDetected => ({ s with facesDetected := s.facesDetected + 1 }, [])
    | .start =>
      ({ transcript := [], startTime := now, eyeContactScores := [], facesDetected := 0 },
       [.status "Recording started - Look at the camera and speak naturally!"])
    | .stop =>
      let duration : ℚ := ((now - s.startTime : ℤ) : ℚ) / 1000
      let avg := avgEyeContact s.eyeContactScores
      let analysis := analyzeTranscript s.transcript duration avg s.facesDetected
      (s, [.finalAnalysis (trimWs s.transcript) analysis])
    | .other => (s, [])

/-- The scored transcript accumulated over a session: each final fragment is
appended as `' ' + fragment` to the initially empty transcript. -/
def sessionTranscript (fragments : List (List Char)) : List Char :=
  fragments.foldl appendFragment []

/-! ### Gaze classifier (frontend `detectEyeContact`) -/

/-- Score computation of `detectEyeContact` for a detected face: face
bounding box `(bx, by', bw, bh)` and frame dimensions `(vw, vh)` in pixels.
Tolerances are `0.15` of each frame dimension; nested thresholds at `0.5`,
`1`, `1.5` of tolerance; the final
`Math.round(Math.max(0, Math.min(100, score)))` is kept as in the source. -/
def detectEyeContactScore (bx by' bw bh vw vh : ℚ) : ℤ :=
  let faceCenterX := bx + bw / 2
  let faceCenterY := by' + bh / 2
  let videoCenterX := vw / 2
  let videoCenterY := vh / 2
  let xTolerance := vw * (15 / 100)
  let yTolerance := vh * (15 / 100)
  let xOffset := |faceCenterX - videoCenterX|
  let yOffset := |faceCenterY - videoCenterY|
  let score : ℤ :=
    if xOffset < xTolerance * (1 / 2) ∧ yOffset < yTolerance * (1 / 2) then 90
    else if xOffset < xTolerance ∧ yOffset < yTolerance then 75
    else if xOffset < xTolerance * (3 / 2) ∧ yOffset < yTolerance * (3 / 2) then 60
    else 40
  jsRound (max 0 (min 100 (score : ℚ)))

/-- The centering ratio `max(dx/tx, dy/ty)` of a face box over a frame. -/
def centeringRatio (bx by' bw bh vw vh : ℚ) : ℚ :=
  max (|bx + bw / 2 - vw / 2| / (vw * (15 / 100)))
      (|by' + bh / 2 - vh / 2| / (vh * (15 / 100)))

/-! ### Whitespace-run word counting (for the transcript shape facts) -/

/-- Number of maximal non-whitespace runs: the count of whitespace-separated
words in a string. -/
def countWords : List Char → Nat
  | [] => 0
  | [c] => if c.isWhitespace then 0 else 1
  | c :: d :: rest =>
    (if ¬c.isWhitespace ∧ d.isWhitespace then 1 else 0) + countWords (d :: rest)

/-- Whether the last character exists and is whitespace. -/
def lastIsWs : List Char → Bool
  | [] => false
  | [c] => c.isWhitespace
  | _ :: d :: rest => lastIsWs (d :: rest)

/-- Whether the first character exists and is whitespace. -/
def headIsWs : List Char → Bool
  | [] => false
  | c :: _ => c.isWhitespace

/-- The spec's §8 scenario transcript. -/
def scenarioTranscript : List Char :=
  "I achieved great results and led the team to success".toList

/-! ## Helper lemmas -/

theorem fillerDelta_bounds (f : Nat) : 0 ≤ fillerDelta f ∧ fillerDelta f ≤ 2 := by
  unfold fillerDelta; split_ifs <;> norm_num

theorem paceDelta_bounds (w : ℤ) : 0 ≤ paceDelta w ∧ paceDelta w ≤ 1 := by
  unfold paceDelta; split_ifs <;> norm_num

theorem gazeDelta_bounds (g : ℤ) : 0 ≤ gazeDelta g ∧ gazeDelta g ≤ 2 := by
  unfold gazeDelta; split_ifs <;> norm_num

theorem lengthDelta_bounds (wc : Nat) : 0 ≤ lengthDelta wc ∧ lengthDelta wc ≤ 1 := by
  unfold lengthDelta; split_ifs <;> norm_num

theorem verbDelta_bounds (v : Nat) : 0 ≤ verbDelta v ∧ verbDelta v ≤ 2 := by
  unfold verbDelta; split_ifs <;> norm_num

/-- The pre-clamp score is at least the base score 6: no rubric subtracts. -/
theorem rawScore_ge_six (t : List Char) (d : ℚ) (g : ℤ) : 6 ≤ rawScore t d g := by
  have h1 := fillerDelta_bounds (fillerCount t)
  have h2 := paceDelta_bounds (wpm t d)
  have h3 := gazeDelta_bounds g
  have h4 := lengthDelta_bounds (wordCount t)
  have h5 := verbDelta_bounds (actionVerbCount t)
  unfold rawScore; omega

/-- The pre-clamp score is at most 6 + 2 + 1 + 2 + 1 + 2 = 14. -/
theorem rawScore_le_fourteen (t : List Char) (d : ℚ) (g : ℤ) : rawScore t d g ≤ 14 := by
  have h1 := fillerDelta_bounds (fillerCount t)
  have h2 := paceDelta_bounds (wpm t d)
  have h3 := gazeDelta_bounds g
  have h4 := lengthDelta_bounds (wordCount t)
  have h5 := verbDelta_bounds (actionVerbCount t)
  unfold rawScore; omega

/-- Deduplication keeps the first pushed suggestion as the head. -/
theorem dedupFirst_head (x : String) (xs : List String) :
    (dedupFirst (x :: xs)).head? = some x := by
  simp [dedupFirst, dedupFirstAux]

/-- The filler suggestion is always the first element of the analyzer's
(deduplicated) suggestion list. -/
theorem analyze_suggestions_head (t : List Char) (d : ℚ) (g : ℤ) (fc : Nat) :
    (analyzeTranscript t d g fc).suggestions.head? =
      some (fillerSuggestion (fillerCount t)) := by
  simp only [analyzeTranscript, suggestionsRaw]
  exact dedupFirst_head _ _

/-! ## Claim theorems -/

/-- C1: for every transcript, positive duration, gaze score and face count,
the analyzer's score is the base score 6 plus the five rubric deltas, clamped
to [1,10]; a pre-clamp sum above 10 yields exactly 10 and a pre-clamp sum
below 1 yields exactly 1. -/
theorem score_is_clamped_rubric_sum (t : List Char) (d : ℚ) (g : ℤ) (fc : Nat)
    (hd : 0 < d) :
    (analyzeTranscript t d g fc).score =
        min 10 (max 1 (6 + fillerDelta (fillerCount t) + paceDelta (wpm t d)
          + gazeDelta g + lengthDelta (wordCount t) + verbDelta (actionVerbCount t))) ∧
    (10 < 6 + fillerDelta (fillerCount t) + paceDelta (wpm t d) + gazeDelta g
          + lengthDelta (wordCount t) + verbDelta (actionVerbCount t) →
        (analyzeTranscript t d g fc).score = 10) ∧
    (6 + fillerDelta (fillerCount t) + paceDelta (wpm t d) + gazeDelta g
          + lengthDelta (wordCount t) + verbDelta (actionVerbCount t) < 1 →
        (analyzeTranscript t d g fc).score = 1) := by
  refine ⟨rfl, fun h => ?_, fun h => ?_⟩ <;>
    · simp only [analyzeTranscript, rawScore]
      omega

theorem score_is_clamped_rubric_sum_witness :
    (0 : ℚ) < 1 ∧
    (analyzeTranscript [] 1 0 0).score =
        min 10 (max 1 (6 + fillerDelta (fillerCount []) + paceDelta (wpm [] 1)
          + gazeDelta 0 + lengthDelta (wordCount []) + verbDelta (actionVerbCount []))) :=
  ⟨by norm_num, (score_is_clamped_rubric_sum [] 1 0 0 (by norm_num)).1⟩

/-- C9: the analyzer's score is always at least 6 (the base score; no rubric
subtracts), so it lies in [6,10] — the lower clamp bound 1 is never attained. -/
theorem score_between_six_and_ten (t : List Char) (d : ℚ) (g : ℤ) (fc : Nat)
    (hd : 0 < d) :
    6 ≤ (analyzeTranscript t d g fc).score ∧ (analyzeTranscript t d g fc).score ≤ 10 := by
  have h6 := rawScore_ge_six t d g
  simp only [analyzeTranscript]
  omega

theorem score_between_six_and_ten_witness :
    (0 : ℚ) < 1 ∧ 6 ≤ (analyzeTranscript [] 1 0 0).score ∧
      (analyzeTranscript [] 1 0 0).score ≤ 10 :=
  ⟨by norm_num, score_between_six_and_ten [] 1 0 0 (by norm_num)⟩

/-- C6: processing a `start` event fully resets the session state — empty
transcript, empty gaze-score list, zero face-detection counter — and sets the
start timestamp to the current time, regardless of the prior state. -/
theorem start_resets_session (s : SessionData) (now : ℤ) :
    (handleMessage s now (.ok .start)).1.transcript = [] ∧
    (handleMessage s now (.ok .start)).1.eyeContactScores = [] ∧
    (handleMessage s now (.ok .start)).1.facesDetected = 0 ∧
    (handleMessage s now (.ok .start)).1.startTime = now :=
  ⟨rfl, rfl, rfl, rfl⟩

/-- C7: a message on which decoding fails produces exactly one `error` reply
carrying the failure description, and leaves the session state unchanged. -/
theorem malformed_message_state_unchanged (s : SessionData) (now : ℤ) (e : String) :
    (handleMessage s now (.error e)).1 = s ∧
    (handleMessage s now (.error e)).2 = [OutMsg.error e] :=
  ⟨rfl, rfl⟩

/-- C2 counterexample: on the §8 scenario input the computed words-per-minute
is not 120 — the transcript has 10 whitespace-separated words, not 9, so
`wpm = round(10 / 0.075) = 133`. -/
theorem scenario_wpm_not_120 :
    ¬ (analyzeTranscript scenarioTranscript (9/2) 85 0).metrics.wordsPerMinute = 120 := by
  have h3 : wordCount scenarioTranscript = 10 := by decide
  have h4 : wpm scenarioTranscript (9/2) = 133 := by
    rw [wpm, h3, jsRound]; norm_num
  simp only [analyzeTranscript, h4]
  norm_num

/-- C2 (amended): on the scenario transcript with duration 4.5 s and average
gaze 85 the analyzer computes 10 total words, wpm = 133 (still the +1 pace
bonus), 0 filler words (+2), gaze bonus +2, length under 50 words (+0),
2 action verbs (+1), and the final clamped score is exactly 10. -/
theorem scenario_analysis_values :
    (analyzeTranscript scenarioTranscript (9/2) 85 0).metrics.totalWords = 10 ∧
    (analyzeTranscript scenarioTranscript (9/2) 85 0).metrics.wordsPerMinute = 133 ∧
    (analyzeTranscript scenarioTranscript (9/2) 85 0).metrics.fillerWords = 0 ∧
    (analyzeTranscript scenarioTranscript (9/2) 85 0).metrics.actionVerbs = 2 ∧
    fillerDelta 0 = 2 ∧ paceDelta 133 = 1 ∧ gazeDelta 85 = 2 ∧
    lengthDelta 10 = 0 ∧ verbDelta 2 = 1 ∧
    (analyzeTranscript scenarioTranscript (9/2) 85 0).score = 10 := by
  have h3 : wordCount scenarioTranscript = 10 := by decide
  have h1 : fillerCount scenarioTranscript = 0 := by decide
  have h2 : actionVerbCount scenarioTranscript = 2 := by decide
  have h4 : wpm scenarioTranscript (9/2) = 133 := by
    rw [wpm, h3, jsRound]; norm_num
  refine ⟨h3, ?_, h1, h2, by decide, by decide, by decide, by decide, by decide, ?_⟩
  · simp only [analyzeTranscript, h4]
  · simp only [analyzeTranscript, rawScore, h1, h2, h3, h4]
    norm_num [fillerDelta, paceDelta, gazeDelta, lengthDelta, verbDelta]

/-- C3: the filler rubric of the analyzer: zero lexicon matches contribute +2
and put exactly "✅ Excellent! No filler words detected" first in the
suggestion list; one or two matches contribute +1; more than two contribute +0
and put the "❌ Too many filler words ({f} found) - Speak with confidence"
suggestion first. -/
theorem filler_rubric_cases (t : List Char) (d : ℚ) (g : ℤ) (fc : Nat) :
    (fillerCount t = 0 →
      fillerDelta (fillerCount t) = 2 ∧
      (analyzeTranscript t d g fc).suggestions.head? =
        some "✅ Excellent! No filler words detected") ∧
    (1 ≤ fillerCount t → fillerCount t ≤ 2 → fillerDelta (fillerCount t) = 1) ∧
    (2 < fillerCount t →
      fillerDelta (fillerCount t) = 0 ∧
      (analyzeTranscript t d g fc).suggestions.head? =
        some s!"❌ Too many filler words ({fillerCount t} found) - Speak with confidence") := by
  refine ⟨fun h0 => ⟨?_, ?_⟩, fun h1 h2 => ?_, fun h3 => ⟨?_, ?_⟩⟩
  · simp [fillerDelta, h0]
  · rw [analyze_suggestions_head, fillerSuggestion, if_pos h0]
  · rw [fillerDelta, if_neg (by omega), if_pos h2]
  · rw [fillerDelta, if_neg (by omega), if_neg (by omega)]
  · rw [analyze_suggestions_head, fillerSuggestion, if_neg (by omega), if_neg (by omega)]

/-- C3 witness: the spec's scenario — a transcript containing "um" twice and
"uh" twice has filler count 4 and gets the ❌ suggestion with delta 0. -/
theorem filler_rubric_cases_witness :
    fillerCount "um uh well um uh".toList = 4 ∧
    (2 < fillerCount "um uh well um uh".toList ∧
      fillerDelta (fillerCount "um uh well um uh".toList) = 0 ∧
      (analyzeTranscript "um uh well um uh".toList 1 0 0).suggestions.head? =
        some "❌ Too many filler words (4 found) - Speak with confidence") := by
  have h4 : fillerCount "um uh well um uh".toList = 4 := by decide
  have hlt : 2 < fillerCount "um uh well um uh".toList := by omega
  obtain ⟨hd0, hhead⟩ := (filler_rubric_cases "um uh well um uh".toList 1 0 0).2.2 hlt
  refine ⟨h4, hlt, hd0, ?_⟩
  rw [hhead, h4]
  rfl

/-- C4: at `stop`, the average gaze score handed to the analyzer is exactly 0
for an empty sample list and the rounded arithmetic mean of the samples
otherwise, and the handler's `final_analysis` reply is the analyzer applied to
that average. -/
theorem stop_average_gaze (s : SessionData) (now : ℤ) :
    (s.eyeContactScores = [] → avgEyeContact s.eyeContactScores = 0) ∧
    (s.eyeContactScores ≠ [] → avgEyeContact s.eyeContactScores =
      jsRound ((s.eyeContactScores.sum : ℚ) / (s.eyeContactScores.length : ℚ))) ∧
    (handleMessage s now (.ok .stop)).2 =
      [OutMsg.finalAnalysis (trimWs s.transcript)
        (analyzeTranscript s.transcript (((now - s.startTime : ℤ) : ℚ) / 1000)
          (avgEyeContact s.eyeContactScores) s.facesDetected)] := by
  refine ⟨fun h => ?_, fun h => ?_, rfl⟩
  · simp [avgEyeContact, h]
  · rw [avgEyeContact, if_pos (List.length_pos.mpr h)]

theorem stop_average_gaze_witness :
    avgEyeContact [] = 0 ∧
    avgEyeContact [80, 90] = jsRound ((((80 : ℤ) + 90 : ℤ) : ℚ) / (2 : ℚ)) := by
  refine ⟨(stop_average_gaze ⟨[], 0, [], 0⟩ 0).1 rfl, ?_⟩
  have h := (stop_average_gaze ⟨[], 0, [80, 90], 0⟩ 0).2.1 (by simp)
  simpa using h

/-- C8 counterexample: the rubric blocks do not always push five suggestions —
at wpm = 100 (between 80 and 120) the pace block pushes nothing, so this input
yields a four-element raw suggestion list. -/
theorem suggestions_not_always_five :
    ¬ (suggestionsRaw "a b c d e f g h i j".toList 6 85).length = 5 := by
  have hw : wordCount "a b c d e f g h i j".toList = 10 := by decide
  have hwpm : wpm "a b c d e f g h i j".toList 6 = 100 := by
    rw [wpm, hw, jsRound]; norm_num
  simp only [suggestionsRaw, paceSuggestions, hwpm]
  norm_num

/-- C8 (amended): the filler, gaze, length and action-verb blocks each push
exactly one suggestion, but the pace block pushes one only when
`wpm ∈ [120,150]`, `wpm < 80` or `wpm > 180`; so before deduplication the
suggestion list has five elements in those cases and four otherwise. -/
theorem suggestionsRaw_length_cases (t : List Char) (d : ℚ) (g : ℤ) :
    (suggestionsRaw t d g).length =
      if (120 ≤ wpm t d ∧ wpm t d ≤ 150) ∨ wpm t d < 80 ∨ 180 < wpm t d
      then 5 else 4 := by
  simp only [suggestionsRaw, paceSuggestions, List.length_cons, List.length_append]
  split_ifs <;> simp_all <;> omega

/-- Unfolding the centering ratio: `max(dx/tx, dy/ty) < c` is exactly the
conjunction of the two offset threshold tests at factor `c` of the
tolerances. -/
theorem centeringRatio_lt_iff (bx by' bw bh vw vh c : ℚ)
    (hvw : 0 < vw) (hvh : 0 < vh) :
    (centeringRatio bx by' bw bh vw vh < c) ↔
      (|bx + bw / 2 - vw / 2| < vw * (15 / 100) * c ∧
       |by' + bh / 2 - vh / 2| < vh * (15 / 100) * c) := by
  unfold centeringRatio
  rw [max_lt_iff, div_lt_iff (by positivity), div_lt_iff (by positivity),
    mul_comm c (vw * (15 / 100)), mul_comm c (vh * (15 / 100))]

/-- The gaze classifier's score is a function of the centering ratio alone:
90 below ratio 1/2, then 75 below 1, then 60 below 3/2, else 40. -/
theorem detectEyeContactScore_by_ratio (bx by' bw bh vw vh : ℚ)
    (hvw : 0 < vw) (hvh : 0 < vh) :
    detectEyeContactScore bx by' bw bh vw vh =
      if centeringRatio bx by' bw bh vw vh < 1 / 2 then 90
      else if centeringRatio bx by' bw bh vw vh < 1 then 75
      else if centeringRatio bx by' bw bh vw vh < 3 / 2 then 60
      else 40 := by
  have h1 := centeringRatio_lt_iff bx by' bw bh vw vh (1 / 2) hvw hvh
  have h2 := centeringRatio_lt_iff bx by' bw bh vw vh 1 hvw hvh
  have h3 := centeringRatio_lt_iff bx by' bw bh vw vh (3 / 2) hvw hvh
  rw [mul_one, mul_one] at h2
  simp only [detectEyeContactScore, ← h1, ← h2, ← h3]
  split_ifs <;> norm_num [jsRound]

/-- C5: the gaze classifier is monotone in the centering ratio: over the same
frame, a face with strictly smaller `max(dx/tx, dy/ty)` never receives a lower
discrete score. -/
theorem gaze_score_monotone_in_ratio (bx1 by1 bw1 bh1 bx2 by2 bw2 bh2 vw vh : ℚ)
    (hvw : 0 < vw) (hvh : 0 < vh)
    (h : centeringRatio bx1 by1 bw1 bh1 vw vh < centeringRatio bx2 by2 bw2 bh2 vw vh) :
    detectEyeContactScore bx2 by2 bw2 bh2 vw vh ≤
      detectEyeContactScore bx1 by1 bw1 bh1 vw vh := by
  rw [detectEyeContactScore_by_ratio bx1 by1 bw1 bh1 vw vh hvw hvh,
    detectEyeContactScore_by_ratio bx2 by2 bw2 bh2 vw vh hvw hvh]
  split_ifs <;> linarith

theorem gaze_score_monotone_in_ratio_witness :
    (0 : ℚ) < 100 ∧
    centeringRatio 40 40 20 20 100 100 < centeringRatio 60 40 20 20 100 100 ∧
    detectEyeContactScore 60 40 20 20 100 100 ≤ detectEyeContactScore 40 40 20 20 100 100 :=
  ⟨by norm_num, by norm_num [centeringRatio],
    gaze_score_monotone_in_ratio 40 40 20 20 60 40 20 20 100 100
      (by norm_num) (by norm_num) (by norm_num [centeringRatio])⟩

theorem splitWs_ne_nil : ∀ t : List Char, splitWs t ≠ []
  | [] => by simp [splitWs]
  | [c] => by rw [splitWs]; split_ifs <;> simp
  | c :: d :: rest => by
    rw [splitWs]
    split_ifs
    · exact splitWs_ne_nil (d :: rest)
    · simp
    · cases h : splitWs (d :: rest) <;> simp

theorem countWords_ws_cons (c : Char) (h : c.isWhitespace) (b : List Char) :
    countWords (c :: b) = countWords b := by
  cases b with
  | nil => simp [countWords, h]
  | cons d rest => simp [countWords, h]

theorem countWords_append_sep (a b : List Char) :
    countWords (a ++ ' ' :: b) = countWords a + countWords b := by
  induction a with
  | nil => simp [countWords, countWords_ws_cons ' ' (by decide) b]
  | cons c rest ih =>
    cases rest with
    | nil =>
      by_cases hc : c.isWhitespace <;>
        simp [countWords, countWords_ws_cons ' ' (by decide) b, hc]
    | cons d rest2 =>
      rw [List.cons_append]
      rw [show ((d :: rest2) ++ ' ' :: b) = d :: (rest2 ++ ' ' :: b) from rfl] at ih ⊢
      rw [countWords, ih, countWords]
      omega

theorem splitWs_length : ∀ t : List Char, t ≠ [] →
    (splitWs t).length = countWords t
      + (if headIsWs t then 1 else 0) + (if lastIsWs t then 1 else 0)
  | [], h => absurd rfl h
  | [c], _ => by
    rw [splitWs]
    by_cases hc : c.isWhitespace <;> simp [countWords, headIsWs, lastIsWs, hc]
  | c :: d :: rest, _ => by
    have ih := splitWs_length (d :: rest) (by simp)
    rw [splitWs]
    by_cases hc : c.isWhitespace
    · by_cases hd : d.isWhitespace
      · rw [if_pos hc, if_pos hd, ih, countWords_ws_cons c hc]
        simp [headIsWs, lastIsWs, hc, hd]
      · rw [if_pos hc, if_neg hd, List.length_cons, ih]
        have hcw : countWords (c :: d :: rest) = countWords (d :: rest) :=
          countWords_ws_cons c hc (d :: rest)
        rw [hcw]
        simp [headIsWs, lastIsWs, hc, hd]
        omega
    · rw [if_neg hc]
      obtain ⟨p, ps, hps⟩ := List.exists_cons_of_ne_nil (splitWs_ne_nil (d :: rest))
      rw [hps]
      have hlen : ((c :: p) :: ps).length = (splitWs (d :: rest)).length := by
        rw [hps]; simp
      rw [hlen, ih]
      have hcw : countWords (c :: d :: rest)
          = (if ¬c.isWhitespace ∧ d.isWhitespace then 1 else 0) + countWords (d :: rest) := by
        rw [countWords]
      rw [hcw]
      by_cases hd : d.isWhitespace <;>
        simp [headIsWs, lastIsWs, hc, hd] <;> omega

theorem foldl_appendFragment_head (fs : List (List Char)) :
    ∀ t : List Char, t ≠ [] → (fs.foldl appendFragment t).head? = t.head? := by
  induction fs with
  | nil => intro t _; rfl
  | cons f fs ih =>
    intro t ht
    rw [List.foldl_cons]
    rw [ih (appendFragment t f) (by simp [appendFragment])]
    cases t with
    | nil => exact absurd rfl ht
    | cons a l => rfl

theorem countWords_foldl (fs : List (List Char)) :
    ∀ t : List Char, countWords (fs.foldl appendFragment t)
      = countWords t + (fs.map countWords).sum := by
  induction fs with
  | nil => intro t; simp
  | cons f fs ih =>
    intro t
    rw [List.foldl_cons, ih (appendFragment t f)]
    simp only [appendFragment, countWords_append_sep, List.map_cons, List.sum_cons]
    omega

theorem sessionTranscript_head (fs : List (List Char)) (h : fs ≠ []) :
    (sessionTranscript fs).head? = some ' ' := by
  cases fs with
  | nil => exact absurd rfl h
  | cons f fs =>
    rw [sessionTranscript, List.foldl_cons]
    rw [show appendFragment [] f = ' ' :: f from rfl]
    rw [foldl_appendFragment_head fs (' ' :: f) (by simp)]
    rfl

/-- C10 counterexample: a session whose single final fragment is the
one-character string " " yields transcript "  ", whose whitespace-split count
is 2, not the (0 whitespace-separated words) + 1 = 1 that the claim predicts. -/
theorem transcript_wordCount_cex :
    ¬ (wordCount (sessionTranscript [[' ']])
        = (([[' ']] : List (List Char)).map countWords).sum + 1) := by decide

/-- C10 (amended): the transcript of a session with at least one final
fragment always begins with a space; provided the accumulated transcript does
not end in whitespace, its whitespace-split count is one greater than the
total number of whitespace-separated words in the fragments (a whitespace
tail would add one more, empty, piece); with no fragments the split count of
the empty transcript is 1, not 0. -/
theorem transcript_wordCount_shape :
    (∀ fs : List (List Char), fs ≠ [] →
      (sessionTranscript fs).head? = some ' ' ∧
      (lastIsWs (sessionTranscript fs) = false →
        wordCount (sessionTranscript fs) = (fs.map countWords).sum + 1)) ∧
    wordCount (sessionTranscript []) = 1 := by
  constructor
  · intro fs hfs
    have hhead := sessionTranscript_head fs hfs
    refine ⟨hhead, fun hlast => ?_⟩
    have hne : sessionTranscript fs ≠ [] := by
      intro h; rw [h] at hhead; exact Option.noConfusion hhead
    have hws : headIsWs (sessionTranscript fs) = true := by
      cases h : sessionTranscript fs with
      | nil => exact absurd h hne
      | cons a l =>
        rw [h] at hhead
        simp only [List.head?_cons, Option.some.injEq] at hhead
        simp [headIsWs, hhead]
    have hcw : countWords (sessionTranscript fs) = (fs.map countWords).sum := by
      rw [sessionTranscript, countWords_foldl fs []]
      simp [countWords]
    rw [wordCount, splitWs_length _ hne, hws, hlast, hcw]
    simp
  · decide

theorem transcript_wordCount_shape_witness :
    (["hello world".toList] : List (List Char)) ≠ [] ∧
    lastIsWs (sessionTranscript ["hello world".toList]) = false ∧
    (sessionTranscript ["hello world".toList]).head? = some ' ' ∧
    wordCount (sessionTranscript ["hello world".toList]) =
      ((["hello world".toList] : List (List Char)).map countWords).sum + 1 := by
  have h1 : (["hello world".toList] : List (List Char)) ≠ [] := by simp
  have h2 : lastIsWs (sessionTranscript ["hello world".toList]) = false := by decide
  obtain ⟨hh, hw⟩ := transcript_wordCount_shape.1 ["hello world".toList] h1
  exact ⟨h1, h2, hh, hw h2⟩
